import Mathlib

/-!
Verification development for the record-splitting pipeline in
src/split_527_data.py (twinforces/IRS527).

The Python program processes a pipe-delimited input file in two passes. The
second pass routes each line by its first field; type "A" and type "B" lines
additionally update shared aggregate statistics, and type "B" lines go through
a fuzzy name matcher with a memoization cache before being queued for a
dedicated batched writer. All claims below concern quiescent-point state (the
program joins every worker and drains the writer before reading the
aggregates), so the pipeline is embedded as a sequential fold over the input
lines, one state-transformer per line, which is the program's observable
behaviour once all locks are released and the queue is drained.

Floating-point currency accumulators are embedded as exact rationals (ℚ):
the program only ever adds parsed amounts, and the invariants claimed are
algebraic identities between sums, stated here exactly.

The similarity scorer (rapidfuzz fuzz.token_sort_ratio, an external library)
is a parameter of the embedding, `scorer : String → String → ℕ`, following the
spec's data model of a similarity score as an integer 0-100. Everything the
program itself does - cache management, score-field writing, histogram
binning, transfer qualification - is embedded from the source.
-/

namespace IRS527

/-! ## String primitives

The program uses Python str.strip / str.lower / str.split("|") and the float()
builtin. These are embedded below over the character-list representation of
strings, matching Python's semantics on the inputs the program sees. -/

/-- Python str.strip(): drop leading and trailing whitespace characters. -/
def stripWs (cs : List Char) : List Char :=
  ((cs.dropWhile Char.isWhitespace).reverse.dropWhile Char.isWhitespace).reverse

/-- line.strip() from the source (src/split_527_data.py line 106/195). -/
def pyStrip (s : String) : String := ⟨stripWs s.data⟩

/-- str.lower() (ASCII case folding, which is what the data contains). -/
def pyLower (s : String) : String := ⟨s.data.map Char.toLower⟩

/-- str.split("|") on the character list: splitting on a single-character
separator, always returning at least one (possibly empty) piece. -/
def splitOnPipe : List Char → List (List Char)
  | [] => [[]]
  | c :: rest =>
    let r := splitOnPipe rest
    if c = '|' then [] :: r
    else (c :: r.headD []) :: r.tail

/-- line.strip().split("|") minus the strip: the field list of a line. -/
def splitFields (s : String) : List String := (splitOnPipe s.data).map (fun cs => ⟨cs⟩)

/-- Python substring containment (the `keyword in purpose` test at
src/split_527_data.py line 144). -/
def occursIn (pat : List Char) : List Char → Bool
  | [] => pat.isEmpty
  | c :: rest => pat.isPrefixOf (c :: rest) || occursIn pat rest

/-- `pat in s` for strings. -/
def containsSub (s pat : String) : Bool := occursIn pat.data s.data

/-! ## Python float() on decimal literals

Model of the CPython float() builtin as used on the amount fields: optional
surrounding whitespace, optional sign, then a decimal mantissa with optional
fraction and optional exponent. Returns none exactly when float() raises
ValueError. (Digit-group underscores and the inf/nan spellings are not
modelled; no amount field in scope uses them.) -/

def digitsToNat (cs : List Char) : ℕ :=
  cs.foldl (fun n c => 10 * n + (c.toNat - 48)) 0

def splitSign : List Char → (Bool × List Char)
  | '+' :: cs => (false, cs)
  | '-' :: cs => (true, cs)
  | cs => (false, cs)

def parseDecimal (cs : List Char) : Option ℚ :=
  let intPart := cs.takeWhile Char.isDigit
  let rest := cs.dropWhile Char.isDigit
  match rest with
  | [] => if intPart.isEmpty then none else some (digitsToNat intPart : ℚ)
  | '.' :: frac =>
    if frac.all Char.isDigit && !(intPart.isEmpty && frac.isEmpty) then
      some ((digitsToNat intPart : ℚ) + (digitsToNat frac : ℚ) / ((10 : ℚ) ^ frac.length))
    else none
  | _ => none

def applyExp (q : ℚ) (eneg : Bool) (e : ℕ) : ℚ :=
  if eneg then q / (10 : ℚ) ^ e else q * (10 : ℚ) ^ e

def parseMantissaExp (cs : List Char) : Option ℚ :=
  let notExpChar : Char → Bool := fun c => !(c == 'e' || c == 'E')
  let mant := cs.takeWhile notExpChar
  match cs.dropWhile notExpChar with
  | [] => parseDecimal mant
  | _ :: expPart =>
    let se := splitSign expPart
    if !se.2.isEmpty && se.2.all Char.isDigit then
      (parseDecimal mant).map (fun q => applyExp q se.1 (digitsToNat se.2))
    else none

def pythonFloat (s : String) : Option ℚ :=
  let sb := splitSign (stripWs s.data)
  match parseMantissaExp sb.2 with
  | some q => some (if sb.1 then -q else q)
  | none => none

/-- The amount conversion at src/split_527_data.py line 122 (and line 204):
`float(amount_str or 0) if amount_str else 0` — an empty field is 0 without
parsing, otherwise float() is attempted, none = ValueError. -/
def parseAmountField (s : String) : Option ℚ :=
  if s = "" then some 0 else pythonFloat s

/-! ## Association lists (defaultdict / dict embeddings) -/

/-- Key lookup in an association list (Python `k in d` / `d[k]`). -/
def lookupA {α β : Type} [DecidableEq α] : List (α × β) → α → Option β
  | [], _ => none
  | (k₁, v₁) :: rest, k => if k₁ = k then some v₁ else lookupA rest k

/-- defaultdict `d[k] += v` with default 0: add to the existing entry, or
create the entry holding v. -/
def bumpMap {α β : Type} [DecidableEq α] [Add β] : List (α × β) → α → β → List (α × β)
  | [], k, v => [(k, v)]
  | (k₁, v₁) :: rest, k, v =>
    if k₁ = k then (k, v₁ + v) :: rest else (k₁, v₁) :: bumpMap rest k v

/-- Sum of the values of an association list. -/
def sumSnd {α β : Type} [AddCommMonoid β] (m : List (α × β)) : β :=
  (m.map Prod.snd).sum

/-! ## Configuration data from the source -/

/-- Fuzzy match score threshold (src/split_527_data.py line 11). -/
def THRESHOLD : ℕ := 60

/-- Keywords for identifying transfers (src/split_527_data.py line 50). -/
def transfer_keywords : List String :=
  ["contribution", "donation", "transfer", "political contribution"]

/-- The per-record-type header table (src/split_527_data.py lines 14-47).
Only the keys (the recognized discriminators) and the "B" entry's width drive
behaviour; the full table is kept for fidelity. -/
def headers : List (String × List String) :=
  [("H", ["record_type", "file_date", "version", "flag"]),
   ("1", ["record_type", "form_id_number", "initial_or_amended", "organization_type", "filing_date",
          "amended_date", "ein", "organization_name", "address_line_1", "address_line_2", "city",
          "state", "zip_code", "contact_email", "contact_phone", "contact_name",
          "custodian_address_line_1", "custodian_address_line_2", "custodian_city",
          "custodian_state", "custodian_zip_code", "director_1_name", "director_1_address_line_1",
          "director_1_address_line_2", "director_1_city", "director_1_state", "director_1_zip_code",
          "related_entity_1_name", "related_entity_1_ein", "related_entity_1_city",
          "related_entity_1_state", "related_entity_1_zip_code", "exemption_type", "purpose",
          "date_organized", "date_of_initial_filing", "amended_reason", "qualified_status",
          "lobbying_expenditures", "election_participation", "fundraising_method", "bank_name",
          "bank_city", "bank_state", "bank_zip_code"]),
   ("D", ["record_type", "form_id_number", "record_id", "organization_name", "ein",
          "candidate_name", "candidate_role", "address_line_1", "address_line_2", "city", "state",
          "zip_code", "additional_detail"]),
   ("R", ["record_type", "form_id_number", "record_id", "organization_name", "ein", "related_name",
          "relationship_type", "related_address_line_1", "related_address_line_2", "related_city",
          "related_state", "related_zip_code", "additional_related_info"]),
   ("Buff", ["record_type", "form_id_number", "field_3", "field_4", "state_code"]),
   ("2", ["record_type", "form_id_number", "report_id", "period_begin_date", "period_end_date",
          "initial_or_amended", "filing_date", "address_line_1", "city", "state",
          "organization_name", "ein", "address_line_2", "zip_code", "contact_phone",
          "contact_email", "date_organized", "contact_name", "contact_address_line_1",
          "contact_address_line_2", "contact_city", "contact_state", "contact_zip_code",
          "custodian_name", "custodian_address_line_1", "custodian_address_line_2",
          "custodian_city", "custodian_state", "custodian_zip_code", "bank_address_line_1",
          "bank_address_line_2", "bank_city", "bank_state", "bank_zip_code",
          "schedule_a_indicator", "total_contributions", "total_expenditures",
          "itemized_contributions", "itemized_expenditures", "unitemized_contributions",
          "cash_on_hand_beginning", "cash_on_hand_end", "contribution_count", "expenditure_count",
          "report_type", "due_date", "amended_reason", "total_receipts"]),
   ("A", ["record_type", "form_id_number", "schedule_id_number", "organization_name",
          "organization_ein", "contributor_name", "contributor_address_line_1",
          "contributor_address_line_2", "contributor_city", "contributor_state",
          "contributor_zip_code", "contributor_zip_ext", "contributor_employer",
          "contribution_amount", "contributor_occupation", "agg_contribution_ytd",
          "contribution_date"]),
   ("B", ["record_type", "form_id_number", "schedule_id_number", "organization_name",
          "organization_ein", "recipient_name", "recipient_address_line_1",
          "recipient_address_line_2", "recipient_city", "recipient_state", "recipient_zip_code",
          "recipient_zip_ext", "recipient_employer", "expenditure_amount", "recipient_occupation",
          "expenditure_date", "expenditure_purpose", "fuzzy_match_score"]),
   ("F", ["record_type", "file_date", "version"])]

/-- The "B" schema (18 fields; recipient_name at 5, expenditure_amount at 13,
expenditure_purpose at 16, fuzzy_match_score at 17). -/
def headersB : List String :=
  (lookupA headers "B").getD []

/-- The recognized discriminators: the keys of output_files, which is built
from the keys of headers (src/split_527_data.py lines 77-81). -/
def recordTypes : List String := headers.map Prod.fst

/-! ## Program state

One record collecting every piece of mutable state the second pass touches:
the stats dict (src lines 53-63), the fuzzy cache and histogram (lines 67-68),
the b_record_queue contents (line 72; the writer thread drains the queue to
the "B" sink verbatim, one line per queued field list, so the queue stands for
the "B" sink), the non-"B" sink writes, and the exception log. `comparisons`
is instrumentation: the number of registry members scored so far, used to
state the memoization claims; the program itself carries no such counter. -/

structure SplitState where
  total_contributions : ℚ := 0
  contribution_count : ℕ := 0
  total_expenditures : ℚ := 0
  expenditure_count : ℕ := 0
  total_pac_to_pac : ℚ := 0
  pac_to_pac_count : ℕ := 0
  expenditure_by_purpose : List (String × ℚ) := []
  expenditure_count_by_purpose : List (String × ℕ) := []
  exceptions_A : ℕ := 0
  exceptions_B : ℕ := 0
  fuzzy_cache : List (String × (Option String × ℕ)) := []
  histogram : List (ℕ × ℕ) := []
  b_queue : List (List String) := []
  sink_out : List (String × String) := []
  exception_log : List String := []
  comparisons : ℕ := 0
deriving Repr, DecidableEq

def initState : SplitState := {}

/-! ## Fuzzy matcher (src/split_527_data.py lines 129-138) -/

/-- Python truthiness of the `match` variable at line 144: None and the empty
string are falsy, any other string truthy. -/
def truthy : Option String → Bool
  | none => false
  | some s => s != ""

/-- Modelled from the spec: rapidfuzz process.extractOne(query, choices,
scorer) — the external library call at line 133. Spec section 4.3: score each
registry member, return the maximum-scoring member with ties broken by first
encountered in iteration order; none when the choice set is empty. -/
def extractOne (scorer : String → String → ℕ) (query : String) :
    List String → Option (String × ℕ)
  | [] => none
  | c :: cs =>
    some (cs.foldl
      (fun best cand =>
        let sc := scorer query cand
        if best.2 < sc then (cand, sc) else best)
      (c, scorer query c))

/-- The cache-or-scan step of process_b_record (lines 130-138): return the
cached result when the name is a cache key; otherwise run extractOne over the
registry (None becoming (none, 0)) and insert the result into the cache.
The third component instruments how many registry members were scored. -/
def fuzzyLookup (scorer : String → String → ℕ) (registry : List String)
    (cache : List (String × (Option String × ℕ))) (name : String) :
    (Option String × ℕ) × List (String × (Option String × ℕ)) × ℕ :=
  match lookupA cache name with
  | some r => (r, cache, 0)
  | none =>
    let r : Option String × ℕ :=
      match extractOne scorer name registry with
      | some ms => (some ms.1, ms.2)
      | none => (none, 0)
    (r, cache ++ [(name, r)], registry.length)

/-! ## process_b_record (src/split_527_data.py lines 105-155) -/

/-- Field-width normalization at lines 110-115: pad with empty strings or
truncate so the record has exactly len(headers["B"]) = 18 fields. -/
def normalizeB (fields : List String) : List String :=
  let expected := headersB.length
  if fields.length < expected then fields ++ List.replicate (expected - fields.length) ""
  else if expected < fields.length then fields.take expected
  else fields

/-- The normalized field list of a "B" line. -/
def bFields (line : String) : List String := normalizeB (splitFields (pyStrip line))

/-- recipient_name at line 117 (the normalized list always has > 5 fields). -/
def bRecipient (line : String) : String := pyLower ((bFields line).getD 5 "")

/-- purpose at line 118. -/
def bPurpose (line : String) : String := pyLower ((bFields line).getD 16 "")

/-- amount_str at line 119. -/
def bAmountStr (line : String) : String := (bFields line).getD 13 ""

/-- The transfer-qualification test at line 144:
`match and score >= THRESHOLD and any(keyword in purpose for keyword in transfer_keywords)`. -/
def transferHit (m : Option String) (score : ℕ) (purpose : String) : Bool :=
  truthy m && decide (THRESHOLD ≤ score)
    && transfer_keywords.any (fun k => containsSub purpose k)

/-- process_b_record (lines 105-155). The only statement inside the try block
that can raise ValueError/TypeError is the float() call on amount_str, so the
try/except is embedded as a case split on parseAmountField: on failure none of
the statements after the parse run and the except branch bumps the B exception
counter and logs the line; the queue.put at line 155 runs in both cases. -/
def process_b_record (registry : List String) (scorer : String → String → ℕ)
    (st : SplitState) (line : String) : SplitState :=
  let fields := splitFields (pyStrip line)
  if fields.length < 14 then st
  else
    let fields1 := normalizeB fields
    let recipient_name := pyLower (fields1.getD 5 "")
    let purpose := pyLower (fields1.getD 16 "")
    let amount_str := fields1.getD 13 ""
    match parseAmountField amount_str with
    | none =>
      { st with
        exceptions_B := st.exceptions_B + 1,
        exception_log := st.exception_log ++ [s!"Record B Exception (Amount: {amount_str}): {line}"],
        b_queue := st.b_queue ++ [fields1] }
    | some amount =>
      let st1 : SplitState :=
        { st with
          total_expenditures := st.total_expenditures + amount,
          expenditure_count := st.expenditure_count + 1,
          expenditure_by_purpose := bumpMap st.expenditure_by_purpose purpose amount,
          expenditure_count_by_purpose := bumpMap st.expenditure_count_by_purpose purpose 1 }
      if recipient_name = "" then
        { st1 with b_queue := st1.b_queue ++ [fields1] }
      else
        let fl := fuzzyLookup scorer registry st1.fuzzy_cache recipient_name
        let score := fl.1.2
        let fields2 := fields1.set 17 (toString score)
        let st2 : SplitState :=
          { st1 with
            fuzzy_cache := fl.2.1,
            comparisons := st1.comparisons + fl.2.2,
            histogram := bumpMap st1.histogram (score / 10 * 10) 1 }
        let st3 : SplitState :=
          if transferHit fl.1.1 score purpose then
            { st2 with
              total_pac_to_pac := st2.total_pac_to_pac + amount,
              pac_to_pac_count := st2.pac_to_pac_count + 1 }
          else st2
        { st3 with b_queue := st3.b_queue ++ [fields2] }

/-! ## The second-pass dispatch loop (src/split_527_data.py lines 194-222) -/

/-- The type "A" branch (lines 201-213): parse the amount synchronously,
accumulate or log, then write the raw line to the "A" sink unconditionally. -/
def processARecord (st : SplitState) (line : String) (fields : List String) : SplitState :=
  let amount_str := fields.getD 13 ""
  let st1 : SplitState :=
    match parseAmountField amount_str with
    | some amount =>
      { st with
        total_contributions := st.total_contributions + amount,
        contribution_count := st.contribution_count + 1 }
    | none =>
      { st with
        exceptions_A := st.exceptions_A + 1,
        exception_log := st.exception_log ++ [s!"Record A Exception (Amount: {amount_str}): {line}"] }
  { st1 with sink_out := st1.sink_out ++ [("A", line)] }

/-- One iteration of the second-pass loop (lines 194-222): skip lines with an
empty first field, skip unrecognized discriminators, route "A" to the
synchronous contribution handler, "B" to process_b_record, and every other
recognized type straight to its sink as the raw line. -/
def dispatchLine (registry : List String) (scorer : String → String → ℕ)
    (st : SplitState) (line : String) : SplitState :=
  let fields := splitFields (pyStrip line)
  let record_type := fields.headD ""
  if record_type = "" then st
  else if recordTypes.contains record_type then
    if record_type = "A" then processARecord st line fields
    else if record_type = "B" then process_b_record registry scorer st line
    else { st with sink_out := st.sink_out ++ [(record_type, line)] }
  else st

/-- The whole second pass at quiescence: fold the per-line transformer over
the input lines from the freshly initialized state. -/
def runSplit (registry : List String) (scorer : String → String → ℕ)
    (lines : List String) : SplitState :=
  lines.foldl (dispatchLine registry scorer) initState

/-- Lines written to a given sink so far: raw-line writes tagged with that
type, plus (for "B") the records queued for the dedicated writer, which the
writer thread emits one line each. -/
def sinkCount (st : SplitState) (t : String) : ℕ :=
  st.sink_out.countP (fun p => p.1 == t) + (if t = "B" then st.b_queue.length else 0)

/-! ## Predicates used by the claim statements -/

/-- A line that reaches the histogram update in process_b_record: a "B" line
with at least 14 fields, a non-empty recipient name, and an amount field that
parses (the histogram update sits inside the try block after the parse). -/
def bHistEligible (line : String) : Bool :=
  (splitFields (pyStrip line)).headD "" == "B"
    && decide (14 ≤ (splitFields (pyStrip line)).length)
    && bRecipient line != ""
    && (parseAmountField (bAmountStr line)).isSome

/-- The population claim C3 counts: "B" lines with at least 14 fields and a
non-empty recipient name (no condition on the amount field). -/
def bClaimEligible (line : String) : Bool :=
  (splitFields (pyStrip line)).headD "" == "B"
    && decide (14 ≤ (splitFields (pyStrip line)).length)
    && bRecipient line != ""

/-- The decimal representations of the similarity scores 0-100: what claim C9
accepts as the trailing field of an emitted "B" record. -/
def isScoreField (s : String) : Bool :=
  ((List.range 101).map (fun n => toString n)).contains s

/-- The scorer gives an empty registry member score 0 against the (non-empty)
query - true of rapidfuzz token_sort_ratio, whose ratio against the empty
string is 0. -/
def ZeroOnEmpty (scorer : String → String → ℕ) : Prop :=
  ∀ q, scorer q "" = 0

/-- Cache entries whose match is Python-falsy (None or the empty string)
carry score 0 - the invariant every cache state reachable by the program
satisfies, since falsy matches are only ever cached together with score 0. -/
def CacheOk (cache : List (String × (Option String × ℕ))) : Prop :=
  ∀ n r, lookupA cache n = some r → truthy r.1 = false → r.2 = 0

/-- The scorer stays within the documented 0-100 range. -/
def ScorerBounded (scorer : String → String → ℕ) : Prop :=
  ∀ q c, scorer q c ≤ 100

/-- Cached scores stay within 0-100. -/
def CacheBounded (cache : List (String × (Option String × ℕ))) : Prop :=
  ∀ n r, lookupA cache n = some r → r.2 ≤ 100

/-- Degenerate concrete scorer used to instantiate witnesses. -/
def zeroScorer : String → String → ℕ := fun _ _ => 0

/-- Concrete scorer used to instantiate witnesses that need a transfer to
qualify: everything matches at 95 except the empty string. -/
def stepScorer : String → String → ℕ := fun _ c => if c = "" then 0 else 95

end IRS527

namespace IRS527

theorem sumSnd_nil {α β : Type} [AddCommMonoid β] : sumSnd ([] : List (α × β)) = 0 := rfl

theorem sumSnd_cons {α β : Type} [AddCommMonoid β] (p : α × β) (m : List (α × β)) :
    sumSnd (p :: m) = p.2 + sumSnd m := by
  simp [sumSnd]

theorem sumSnd_bumpMap {α β : Type} [DecidableEq α] [AddCommMonoid β]
    (m : List (α × β)) (k : α) (v : β) :
    sumSnd (bumpMap m k v) = sumSnd m + v := by
  induction m with
  | nil => simp [bumpMap, sumSnd]
  | cons p rest ih =>
    obtain ⟨k₁, v₁⟩ := p
    by_cases hk : k₁ = k
    · simp [bumpMap, hk, sumSnd_cons, add_assoc, add_comm, add_left_comm]
    · simp only [bumpMap, if_neg hk, sumSnd_cons, ih, add_assoc]

theorem lookupA_append_self {α β : Type} [DecidableEq α]
    (c : List (α × β)) (k : α) (v : β) (h : lookupA c k = none) :
    lookupA (c ++ [(k, v)]) k = some v := by
  induction c with
  | nil => simp [lookupA]
  | cons p rest ih =>
    obtain ⟨k₁, v₁⟩ := p
    by_cases hk : k₁ = k
    · simp [lookupA, hk] at h
    · simp only [lookupA, if_neg hk] at h ⊢
      exact ih h

theorem extractOne_foldl_score (scorer : String → String → ℕ) (q : String)
    (cs : List String) (best : String × ℕ) (h : best.2 = scorer q best.1) :
    (cs.foldl
      (fun best cand =>
        let sc := scorer q cand
        if best.2 < sc then (cand, sc) else best) best).2
      = scorer q
        ((cs.foldl
          (fun best cand =>
            let sc := scorer q cand
            if best.2 < sc then (cand, sc) else best) best).1) := by
  induction cs generalizing best with
  | nil => exact h
  | cons c rest ih =>
    simp only [List.foldl_cons]
    by_cases hlt : best.2 < scorer q c
    · exact ih _ (by rw [if_pos hlt])
    · exact ih _ (by rw [if_neg hlt]; exact h)

theorem extractOne_score (scorer : String → String → ℕ) (q : String)
    (choices : List String) (p : String × ℕ)
    (h : extractOne scorer q choices = some p) : p.2 = scorer q p.1 := by
  cases choices with
  | nil => simp [extractOne] at h
  | cons c cs =>
    simp only [extractOne, Option.some.injEq] at h
    subst h
    exact extractOne_foldl_score scorer q cs (c, scorer q c) rfl

theorem normalizeB_length (fields : List String) : (normalizeB fields).length = 18 := by
  simp only [normalizeB]
  have h18 : headersB.length = 18 := by decide
  rw [h18]
  split
  · simp; omega
  · split
    · simp; omega
    · omega

example (t : String) (h : recordTypes.contains t = true) : t ∈ recordTypes := by
  simpa using h

end IRS527

namespace IRS527

theorem fuzzyLookup_falsy (scorer : String → String → ℕ) (registry : List String)
    (cache : List (String × (Option String × ℕ))) (name : String)
    (hz : ZeroOnEmpty scorer) (hc : CacheOk cache)
    (hf : truthy (fuzzyLookup scorer registry cache name).1.1 = false) :
    (fuzzyLookup scorer registry cache name).1.2 = 0 := by
  revert hf
  simp only [fuzzyLookup]
  cases hcc : lookupA cache name with
  | some r => intro hf; exact hc name r hcc hf
  | none =>
    cases he : extractOne scorer name registry with
    | none => intro hf; rfl
    | some ms =>
      intro hf
      have hms : ms.2 = scorer name ms.1 := extractOne_score scorer name registry ms he
      have hf' : ms.1 = "" := by simpa [truthy] using hf
      show ms.2 = 0
      rw [hms, hf', hz name]

theorem fuzzyLookup_le (scorer : String → String → ℕ) (registry : List String)
    (cache : List (String × (Option String × ℕ))) (name : String)
    (hs : ScorerBounded scorer) (hcb : CacheBounded cache) :
    (fuzzyLookup scorer registry cache name).1.2 ≤ 100 := by
  simp only [fuzzyLookup]
  cases hcc : lookupA cache name with
  | some r => exact hcb name r hcc
  | none =>
    cases he : extractOne scorer name registry with
    | none => exact Nat.zero_le 100
    | some ms =>
      show ms.2 ≤ 100
      rw [extractOne_score scorer name registry ms he]
      exact hs name ms.1

theorem pbr_short (registry : List String) (scorer : String → String → ℕ)
    (st : SplitState) (line : String)
    (h : (splitFields (pyStrip line)).length < 14) :
    process_b_record registry scorer st line = st := by
  simp only [process_b_record]
  rw [if_pos h]

theorem pbr_sink_out (registry : List String) (scorer : String → String → ℕ)
    (st : SplitState) (line : String) :
    (process_b_record registry scorer st line).sink_out = st.sink_out := by
  simp only [process_b_record]
  repeat' split
  all_goals simp

theorem pbr_queue_len (registry : List String) (scorer : String → String → ℕ)
    (st : SplitState) (line : String)
    (h : 14 ≤ (splitFields (pyStrip line)).length) :
    (process_b_record registry scorer st line).b_queue.length = st.b_queue.length + 1 := by
  simp only [process_b_record]
  rw [if_neg (Nat.not_lt.mpr h)]
  repeat' split
  all_goals simp

theorem paR_sink_out (st : SplitState) (line : String) (fields : List String) :
    (processARecord st line fields).sink_out = st.sink_out ++ [("A", line)] := by
  simp only [processARecord]
  split
  all_goals simp

theorem paR_queue (st : SplitState) (line : String) (fields : List String) :
    (processARecord st line fields).b_queue = st.b_queue := by
  simp only [processARecord]
  split
  all_goals simp

end IRS527

namespace IRS527

/-- C8: a type-B input line splitting into fewer than 14 fields is dropped
silently: process_b_record returns the state unchanged - no output record, no
log entry, no aggregate change of any kind. -/
theorem C8_short_record_dropped (registry : List String) (scorer : String → String → ℕ)
    (st : SplitState) (line : String)
    (h : (splitFields (pyStrip line)).length < 14) :
    process_b_record registry scorer st line = st :=
  pbr_short registry scorer st line h

theorem C8_witness :
    (splitFields (pyStrip "B|1|2")).length < 14 ∧
    process_b_record [] zeroScorer initState "B|1|2" = initState :=
  ⟨by decide, C8_short_record_dropped [] zeroScorer initState "B|1|2" (by decide)⟩

/-- C4: a type-B record with at least 14 fields whose amount field does not
parse as a float increments the B exception counter by exactly 1, appends
exactly one line to the exception log, and still queues exactly one output
record for the B sink. -/
theorem C4_nonnumeric_amount_effect (registry : List String) (scorer : String → String → ℕ)
    (st : SplitState) (line : String)
    (hlen : 14 ≤ (splitFields (pyStrip line)).length)
    (hp : parseAmountField (bAmountStr line) = none) :
    (process_b_record registry scorer st line).exceptions_B = st.exceptions_B + 1 ∧
    (process_b_record registry scorer st line).exception_log.length
      = st.exception_log.length + 1 ∧
    (process_b_record registry scorer st line).b_queue.length = st.b_queue.length + 1 := by
  simp only [bAmountStr, bFields] at hp
  simp only [process_b_record]
  rw [if_neg (Nat.not_lt.mpr hlen), hp]
  simp

theorem C4_witness :
    (14 ≤ (splitFields (pyStrip "B|1|2|3|4|n|6|7|8|9|10|11|12|abc")).length ∧
     parseAmountField (bAmountStr "B|1|2|3|4|n|6|7|8|9|10|11|12|abc") = none) ∧
    ((process_b_record [] zeroScorer initState "B|1|2|3|4|n|6|7|8|9|10|11|12|abc").exceptions_B
        = initState.exceptions_B + 1 ∧
     (process_b_record [] zeroScorer initState "B|1|2|3|4|n|6|7|8|9|10|11|12|abc").exception_log.length
        = initState.exception_log.length + 1 ∧
     (process_b_record [] zeroScorer initState "B|1|2|3|4|n|6|7|8|9|10|11|12|abc").b_queue.length
        = initState.b_queue.length + 1) :=
  ⟨⟨by decide, by decide⟩,
   C4_nonnumeric_amount_effect [] zeroScorer initState "B|1|2|3|4|n|6|7|8|9|10|11|12|abc"
     (by decide) (by decide)⟩

/-- C10: when the amount field of a type-B record with at least 14 fields
fails numeric parsing, the only aggregate change is the B exception counter
(plus the log line): expenditure totals and counts, both per-purpose maps, the
histogram, the PAC-to-PAC totals, the fuzzy cache and the comparison count are
untouched, and the record is queued with its trailing score field exactly as
width-normalization left it (never overwritten). -/
theorem C10_parse_failure_frame (registry : List String) (scorer : String → String → ℕ)
    (st : SplitState) (line : String)
    (hlen : 14 ≤ (splitFields (pyStrip line)).length)
    (hp : parseAmountField (bAmountStr line) = none) :
    (process_b_record registry scorer st line).total_expenditures = st.total_expenditures ∧
    (process_b_record registry scorer st line).expenditure_count = st.expenditure_count ∧
    (process_b_record registry scorer st line).expenditure_by_purpose
      = st.expenditure_by_purpose ∧
    (process_b_record registry scorer st line).expenditure_count_by_purpose
      = st.expenditure_count_by_purpose ∧
    (process_b_record registry scorer st line).histogram = st.histogram ∧
    (process_b_record registry scorer st line).total_pac_to_pac = st.total_pac_to_pac ∧
    (process_b_record registry scorer st line).pac_to_pac_count = st.pac_to_pac_count ∧
    (process_b_record registry scorer st line).fuzzy_cache = st.fuzzy_cache ∧
    (process_b_record registry scorer st line).comparisons = st.comparisons ∧
    (process_b_record registry scorer st line).exceptions_B = st.exceptions_B + 1 ∧
    (process_b_record registry scorer st line).b_queue = st.b_queue ++ [bFields line] := by
  simp only [bAmountStr, bFields] at hp
  simp only [process_b_record]
  rw [if_neg (Nat.not_lt.mpr hlen), hp]
  simp [bFields]

theorem C10_witness :
    (14 ≤ (splitFields (pyStrip "B|1|2|3|4|r|6|7|8|9|10|11|12|xyz")).length ∧
     parseAmountField (bAmountStr "B|1|2|3|4|r|6|7|8|9|10|11|12|xyz") = none) ∧
    ((process_b_record [] zeroScorer initState "B|1|2|3|4|r|6|7|8|9|10|11|12|xyz").histogram
        = initState.histogram ∧
     (process_b_record [] zeroScorer initState "B|1|2|3|4|r|6|7|8|9|10|11|12|xyz").b_queue
        = initState.b_queue ++ [bFields "B|1|2|3|4|r|6|7|8|9|10|11|12|xyz"]) :=
  ⟨⟨by decide, by decide⟩,
   ⟨(C10_parse_failure_frame [] zeroScorer initState "B|1|2|3|4|r|6|7|8|9|10|11|12|xyz"
       (by decide) (by decide)).2.2.2.2.1,
    (C10_parse_failure_frame [] zeroScorer initState "B|1|2|3|4|r|6|7|8|9|10|11|12|xyz"
       (by decide) (by decide)).2.2.2.2.2.2.2.2.2.2⟩⟩

/-- C6: a type-B record (with at least 14 fields) whose recipient-name field
is empty performs no registry scan, no cache read or write, no histogram
update, and records no transfer: the fuzzy-match block is skipped entirely. -/
theorem C6_empty_recipient_no_lookup (registry : List String) (scorer : String → String → ℕ)
    (st : SplitState) (line : String)
    (hlen : 14 ≤ (splitFields (pyStrip line)).length)
    (hrec : bRecipient line = "") :
    (process_b_record registry scorer st line).fuzzy_cache = st.fuzzy_cache ∧
    (process_b_record registry scorer st line).comparisons = st.comparisons ∧
    (process_b_record registry scorer st line).histogram = st.histogram ∧
    (process_b_record registry scorer st line).total_pac_to_pac = st.total_pac_to_pac ∧
    (process_b_record registry scorer st line).pac_to_pac_count = st.pac_to_pac_count := by
  simp only [bRecipient, bFields] at hrec
  simp only [process_b_record]
  rw [if_neg (Nat.not_lt.mpr hlen)]
  cases hp : parseAmountField ((normalizeB (splitFields (pyStrip line))).getD 13 "") with
  | none => simp
  | some a =>
    simp at hrec
    simp [hrec]

theorem C6_witness :
    (14 ≤ (splitFields (pyStrip "B|1|2|3|4||6|7|8|9|10|11|12|5")).length ∧
     bRecipient "B|1|2|3|4||6|7|8|9|10|11|12|5" = "") ∧
    ((process_b_record [] zeroScorer initState "B|1|2|3|4||6|7|8|9|10|11|12|5").fuzzy_cache
        = initState.fuzzy_cache ∧
     (process_b_record [] zeroScorer initState "B|1|2|3|4||6|7|8|9|10|11|12|5").comparisons
        = initState.comparisons ∧
     (process_b_record [] zeroScorer initState "B|1|2|3|4||6|7|8|9|10|11|12|5").histogram
        = initState.histogram ∧
     (process_b_record [] zeroScorer initState "B|1|2|3|4||6|7|8|9|10|11|12|5").total_pac_to_pac
        = initState.total_pac_to_pac ∧
     (process_b_record [] zeroScorer initState "B|1|2|3|4||6|7|8|9|10|11|12|5").pac_to_pac_count
        = initState.pac_to_pac_count) :=
  ⟨⟨by decide, by decide⟩,
   C6_empty_recipient_no_lookup [] zeroScorer initState "B|1|2|3|4||6|7|8|9|10|11|12|5"
     (by decide) (by decide)⟩

/-- C5: the fuzzy lookup is memoized and idempotent: for a non-empty candidate
name, looking it up a second time in the cache produced by the first lookup
returns the identical result and scores zero registry members. -/
theorem C5_fuzzy_memoized (scorer : String → String → ℕ) (registry : List String)
    (cache : List (String × (Option String × ℕ))) (name : String) (_h : name ≠ "") :
    (fuzzyLookup scorer registry (fuzzyLookup scorer registry cache name).2.1 name).1
      = (fuzzyLookup scorer registry cache name).1 ∧
    (fuzzyLookup scorer registry (fuzzyLookup scorer registry cache name).2.1 name).2.2 = 0 := by
  cases hcc : lookupA cache name with
  | some r => simp [fuzzyLookup, hcc]
  | none =>
    simp only [fuzzyLookup, hcc]
    rw [lookupA_append_self cache name _ hcc]
    exact ⟨rfl, rfl⟩

theorem C5_witness :
    (("acme" : String) ≠ "") ∧
    ((fuzzyLookup zeroScorer ["x"] (fuzzyLookup zeroScorer ["x"] [] "acme").2.1 "acme").1
        = (fuzzyLookup zeroScorer ["x"] [] "acme").1 ∧
     (fuzzyLookup zeroScorer ["x"] (fuzzyLookup zeroScorer ["x"] [] "acme").2.1 "acme").2.2 = 0) :=
  ⟨by decide, C5_fuzzy_memoized zeroScorer ["x"] [] "acme" (by decide)⟩

end IRS527

namespace IRS527

theorem paR_frame (st : SplitState) (line : String) (fields : List String) :
    (processARecord st line fields).expenditure_by_purpose = st.expenditure_by_purpose ∧
    (processARecord st line fields).total_expenditures = st.total_expenditures ∧
    (processARecord st line fields).histogram = st.histogram := by
  simp only [processARecord]
  split <;> simp

theorem countP_singleton_key (t u line : String) :
    List.countP (fun p => p.1 == u) [(t, line)] = if t = u then 1 else 0 := by
  by_cases h : t = u
  · subst h
    simp
  · simp [List.countP_cons, beq_iff_eq, h]

/-- C2: every input line whose first field is a recognized discriminator
produces exactly one output line in that discriminator's sink (and none in any
other sink), except a type-B line with fewer than 14 fields, which produces
none; a line with an empty or unrecognized first field produces none. -/
theorem C2_dispatch_exactly_one_output (registry : List String)
    (scorer : String → String → ℕ) (st : SplitState) (line : String) :
    (((splitFields (pyStrip line)).headD "" ∈ recordTypes ∧
        ((splitFields (pyStrip line)).headD "" ≠ "B" ∨
          14 ≤ (splitFields (pyStrip line)).length)) →
      ∀ u, sinkCount (dispatchLine registry scorer st line) u
        = sinkCount st u
          + (if u = (splitFields (pyStrip line)).headD "" then 1 else 0)) ∧
    (((splitFields (pyStrip line)).headD "" = "B" ∧
        (splitFields (pyStrip line)).length < 14) →
      ∀ u, sinkCount (dispatchLine registry scorer st line) u = sinkCount st u) ∧
    ((splitFields (pyStrip line)).headD "" ∉ recordTypes →
      ∀ u, sinkCount (dispatchLine registry scorer st line) u = sinkCount st u) := by
  refine ⟨?_, ?_, ?_⟩
  · rintro ⟨hmem, hB⟩ u
    have hne : ¬((splitFields (pyStrip line)).headD "" = "") := by
      intro h0
      rw [h0] at hmem
      exact absurd hmem (by decide)
    have hcon : recordTypes.contains ((splitFields (pyStrip line)).headD "") = true := by
      simpa using hmem
    simp only [dispatchLine]
    rw [if_neg hne, if_pos hcon]
    by_cases hA : (splitFields (pyStrip line)).headD "" = "A"
    · rw [if_pos hA, hA]
      simp only [sinkCount, paR_sink_out, paR_queue, List.countP_append, countP_singleton_key]
      by_cases hu : u = "A"
      · rw [if_pos hu.symm, if_pos hu]
        ring
      · rw [if_neg (fun h => hu h.symm), if_neg hu]
        ring
    · rw [if_neg hA]
      by_cases hBt : (splitFields (pyStrip line)).headD "" = "B"
      · rw [if_pos hBt, hBt]
        have hlen : 14 ≤ (splitFields (pyStrip line)).length := by
          rcases hB with h | h
          · exact absurd hBt h
          · exact h
        simp only [sinkCount, pbr_sink_out]
        rw [pbr_queue_len registry scorer st line hlen]
        by_cases hu : u = "B"
        · rw [if_pos hu, if_pos hu, if_pos hu]
          ring
        · rw [if_neg hu, if_neg hu, if_neg hu]
      · rw [if_neg hBt]
        simp only [sinkCount, List.countP_append, countP_singleton_key]
        by_cases hu : u = (splitFields (pyStrip line)).headD ""
        · rw [if_pos hu.symm, if_pos hu]
          ring
        · rw [if_neg (fun h => hu h.symm), if_neg hu]
          ring
  · rintro ⟨hBt, hshort⟩ u
    simp only [dispatchLine]
    rw [hBt]
    rw [if_neg (by decide : ¬(("B" : String) = "")),
        if_pos (by decide : recordTypes.contains "B" = true),
        if_neg (by decide : ¬(("B" : String) = "A")),
        if_pos (rfl : ("B" : String) = "B")]
    rw [pbr_short registry scorer st line hshort]
  · intro hmem u
    simp only [dispatchLine]
    by_cases h0 : (splitFields (pyStrip line)).headD "" = ""
    · rw [if_pos h0]
    · rw [if_neg h0, if_neg (by simpa using hmem)]

theorem C2_witness :
    (("D" : String) ∈ recordTypes ∧
      ((("D" : String) ≠ "B") ∨ 14 ≤ (splitFields (pyStrip "D|x")).length)) ∧
    sinkCount (dispatchLine [] zeroScorer initState "D|x") "D"
      = sinkCount initState "D"
        + (if ("D" : String) = (splitFields (pyStrip "D|x")).headD "" then 1 else 0) :=
  ⟨⟨by decide, Or.inl (by decide)⟩,
   (C2_dispatch_exactly_one_output [] zeroScorer initState "D|x").1
     ⟨by decide, Or.inl (by decide)⟩ "D"⟩

end IRS527

namespace IRS527

theorem pbr_exp_inv (registry : List String) (scorer : String → String → ℕ)
    (st : SplitState) (line : String)
    (h : sumSnd st.expenditure_by_purpose = st.total_expenditures) :
    sumSnd (process_b_record registry scorer st line).expenditure_by_purpose
      = (process_b_record registry scorer st line).total_expenditures := by
  simp only [process_b_record]
  repeat' split
  all_goals simp [sumSnd_bumpMap, h]

theorem dispatch_exp_inv (registry : List String) (scorer : String → String → ℕ)
    (st : SplitState) (line : String)
    (h : sumSnd st.expenditure_by_purpose = st.total_expenditures) :
    sumSnd (dispatchLine registry scorer st line).expenditure_by_purpose
      = (dispatchLine registry scorer st line).total_expenditures := by
  simp only [dispatchLine]
  split
  · exact h
  · split
    · split
      · have hp := paR_frame st line (splitFields (pyStrip line))
        rw [hp.1, hp.2.1]
        exact h
      · split
        · exact pbr_exp_inv registry scorer st line h
        · simpa using h
    · exact h

theorem runSplit_exp_aux (registry : List String) (scorer : String → String → ℕ)
    (lines : List String) :
    ∀ st : SplitState, sumSnd st.expenditure_by_purpose = st.total_expenditures →
      sumSnd ((lines.foldl (dispatchLine registry scorer) st).expenditure_by_purpose)
        = (lines.foldl (dispatchLine registry scorer) st).total_expenditures := by
  induction lines with
  | nil => exact fun st h => h
  | cons l ls ih =>
    exact fun st h => ih (dispatchLine registry scorer st l)
      (dispatch_exp_inv registry scorer st l h)

/-- C1: at quiescence (after the whole second pass has been folded over the
input), the sum over all values of the per-purpose expenditure-amount map
equals the aggregator's total_expenditures: every B-record update adds the
same amount to both inside the same critical section. Stated exactly over the
rational-number embedding of the float accumulators. -/
theorem C1_purpose_sum_eq_total (registry : List String) (scorer : String → String → ℕ)
    (lines : List String) :
    sumSnd (runSplit registry scorer lines).expenditure_by_purpose
      = (runSplit registry scorer lines).total_expenditures :=
  runSplit_exp_aux registry scorer lines initState rfl

theorem pbr_hist (registry : List String) (scorer : String → String → ℕ)
    (st : SplitState) (line : String) :
    sumSnd (process_b_record registry scorer st line).histogram
      = sumSnd st.histogram
        + (if (decide (14 ≤ (splitFields (pyStrip line)).length)
              && bRecipient line != ""
              && (parseAmountField (bAmountStr line)).isSome) = true then 1 else 0) := by
  simp only [bRecipient, bAmountStr, bFields, List.getD_eq_getElem?_getD]
  simp only [process_b_record, List.getD_eq_getElem?_getD]
  split
  case isTrue hshort =>
    have hn : ¬(14 ≤ (splitFields (pyStrip line)).length) := by omega
    simp [hn]
  case isFalse hlong =>
    have h14 : 14 ≤ (splitFields (pyStrip line)).length := Nat.not_lt.mp hlong
    split
    case h_1 a heq =>
      simp [heq]
    case h_2 a amount heq =>
      simp only [heq]
      by_cases hrec : pyLower ((normalizeB (splitFields (pyStrip line)))[5]?.getD "") = ""
      · rw [if_pos hrec]
        simp [hrec]
      · rw [if_neg hrec]
        split
        all_goals simp [sumSnd_bumpMap, h14, hrec]

theorem dispatch_hist (registry : List String) (scorer : String → String → ℕ)
    (st : SplitState) (line : String) :
    sumSnd (dispatchLine registry scorer st line).histogram
      = sumSnd st.histogram + (if bHistEligible line = true then 1 else 0) := by
  simp only [dispatchLine]
  split
  case isTrue h0 =>
    have hfalse : ((splitFields (pyStrip line)).headD "" == "B") = false := by
      rw [h0]
      decide
    have hb : bHistEligible line = false := by
      simp only [bHistEligible]
      rw [hfalse]
      simp only [Bool.false_and]
    simp [hb]
  case isFalse h0 =>
    split
    case isTrue hmem =>
      split
      case isTrue hA =>
        have hfalse : ((splitFields (pyStrip line)).headD "" == "B") = false := by
          rw [hA]
          decide
        have hb : bHistEligible line = false := by
          simp only [bHistEligible]
          rw [hfalse]
          simp only [Bool.false_and]
        rw [(paR_frame st line (splitFields (pyStrip line))).2.2]
        simp [hb]
      case isFalse hA =>
        split
        case isTrue hBt =>
          have ha : ((splitFields (pyStrip line)).headD "" == "B") = true :=
            beq_iff_eq.mpr hBt
          have hcond : bHistEligible line
              = (decide (14 ≤ (splitFields (pyStrip line)).length)
                  && bRecipient line != ""
                  && (parseAmountField (bAmountStr line)).isSome) := by
            simp only [bHistEligible]
            rw [ha, Bool.true_and]
          rw [hcond]
          exact pbr_hist registry scorer st line
        case isFalse hBt =>
          have hfalse : ((splitFields (pyStrip line)).headD "" == "B") = false :=
            beq_eq_false_iff_ne.mpr hBt
          have hb : bHistEligible line = false := by
            simp only [bHistEligible]
            rw [hfalse]
            simp only [Bool.false_and]
          simp [hb]
    case isFalse hmem =>
      have hBt : ¬((splitFields (pyStrip line)).headD "" = "B") := by
        intro hEq
        rw [hEq] at hmem
        exact hmem (by decide)
      have hfalse : ((splitFields (pyStrip line)).headD "" == "B") = false :=
        beq_eq_false_iff_ne.mpr hBt
      have hb : bHistEligible line = false := by
        simp only [bHistEligible]
        rw [hfalse]
        simp only [Bool.false_and]
      simp [hb]

end IRS527

namespace IRS527

theorem runSplit_hist_aux (registry : List String) (scorer : String → String → ℕ)
    (lines : List String) :
    ∀ st : SplitState,
      sumSnd ((lines.foldl (dispatchLine registry scorer) st).histogram)
        = sumSnd st.histogram + lines.countP bHistEligible := by
  induction lines with
  | nil => intro st; simp [List.countP_nil]
  | cons l ls ih =>
    intro st
    simp only [List.foldl_cons, List.countP_cons]
    rw [ih (dispatchLine registry scorer st l), dispatch_hist]
    by_cases hb : bHistEligible l = true
    · simp only [hb, if_pos]
      ring
    · simp only [hb]
      simp

/-- C3 (amended): after a completed run, the sum of all histogram bucket
counts equals the number of processed type-B records (at least 14 fields) with
a non-empty recipient name AND a parseable amount field: records whose amount
fails to parse take the exception path before the histogram update. -/
theorem C3_histogram_sum_amended (registry : List String) (scorer : String → String → ℕ)
    (lines : List String) :
    sumSnd (runSplit registry scorer lines).histogram = lines.countP bHistEligible := by
  have h := runSplit_hist_aux registry scorer lines initState
  simpa [runSplit, initState, sumSnd] using h

/-- C3 (counterexample to the claim as stated): a single "B" line with 14
fields, non-empty recipient name, and non-numeric amount "abc" is counted by
the claim's population but takes the exception path, so the histogram stays
empty: 0 ≠ 1. -/
theorem C3_counterexample :
    ¬ (sumSnd (runSplit [] zeroScorer ["B|1|2|3|4|n|6|7|8|9|10|11|12|abc"]).histogram
        = (["B|1|2|3|4|n|6|7|8|9|10|11|12|abc"].countP bClaimEligible)) := by
  decide

theorem transferHit_iff (scorer : String → String → ℕ) (registry : List String)
    (cache : List (String × (Option String × ℕ))) (name purpose : String)
    (hz : ZeroOnEmpty scorer) (hc : CacheOk cache) :
    (transferHit (fuzzyLookup scorer registry cache name).1.1
        (fuzzyLookup scorer registry cache name).1.2 purpose = true)
      ↔ (THRESHOLD ≤ (fuzzyLookup scorer registry cache name).1.2 ∧
          transfer_keywords.any (fun k => containsSub purpose k) = true) := by
  constructor
  · intro h
    simp only [transferHit, Bool.and_eq_true, decide_eq_true_eq] at h
    exact ⟨h.1.2, h.2⟩
  · rintro ⟨hsc, hkw⟩
    by_cases ht : truthy (fuzzyLookup scorer registry cache name).1.1 = true
    · simp [transferHit, ht, hsc, hkw]
    · exfalso
      have h0 := fuzzyLookup_falsy scorer registry cache name hz hc
        (by simpa using ht)
      rw [h0] at hsc
      exact absurd hsc (by decide)

end IRS527

namespace IRS527

theorem getD_set_17 (l : List String) (v : String) (h : l.length = 18) :
    (l.set 17 v).getD 17 "" = v := by
  rw [List.getD_eq_getElem?_getD, List.getElem?_set_eq_of_lt v (by omega)]
  rfl

/-- C7: for a type-B record with a parseable amount and a non-empty recipient
name, the PAC-to-PAC totals grow by (amount, 1) exactly when the fuzzy-match
score is at least THRESHOLD = 60 and the lower-cased purpose contains one of
the transfer keywords, and are unchanged otherwise. The hypotheses record two
facts about the real scorer and the reachable cache states: the similarity of
any name to the empty string is 0, and cached falsy matches carry score 0. -/
theorem C7_transfer_iff_claim (registry : List String) (scorer : String → String → ℕ)
    (st : SplitState) (line : String) (a : ℚ)
    (hz : ZeroOnEmpty scorer) (hc : CacheOk st.fuzzy_cache)
    (hlen : 14 ≤ (splitFields (pyStrip line)).length)
    (hp : parseAmountField (bAmountStr line) = some a)
    (hr : bRecipient line ≠ "") :
    (process_b_record registry scorer st line).total_pac_to_pac
      = st.total_pac_to_pac
        + (if THRESHOLD ≤ (fuzzyLookup scorer registry st.fuzzy_cache (bRecipient line)).1.2 ∧
              transfer_keywords.any (fun k => containsSub (bPurpose line) k) = true
           then a else 0) ∧
    (process_b_record registry scorer st line).pac_to_pac_count
      = st.pac_to_pac_count
        + (if THRESHOLD ≤ (fuzzyLookup scorer registry st.fuzzy_cache (bRecipient line)).1.2 ∧
              transfer_keywords.any (fun k => containsSub (bPurpose line) k) = true
           then 1 else 0) := by
  simp only [bRecipient, bPurpose, bAmountStr, bFields, List.getD_eq_getElem?_getD] at hp hr ⊢
  simp only [process_b_record, List.getD_eq_getElem?_getD]
  rw [if_neg (Nat.not_lt.mpr hlen)]
  simp only [hp]
  rw [if_neg hr]
  by_cases hcnd :
      THRESHOLD ≤ (fuzzyLookup scorer registry st.fuzzy_cache
          (pyLower ((normalizeB (splitFields (pyStrip line)))[5]?.getD ""))).1.2 ∧
        transfer_keywords.any (fun k =>
          containsSub (pyLower ((normalizeB (splitFields (pyStrip line)))[16]?.getD "")) k) = true
  · have htr := (transferHit_iff scorer registry st.fuzzy_cache
      (pyLower ((normalizeB (splitFields (pyStrip line)))[5]?.getD ""))
      (pyLower ((normalizeB (splitFields (pyStrip line)))[16]?.getD "")) hz hc).mpr hcnd
    rw [if_pos htr, if_pos hcnd, if_pos hcnd]
    exact ⟨rfl, rfl⟩
  · have hnot : ¬(transferHit
        (fuzzyLookup scorer registry st.fuzzy_cache
          (pyLower ((normalizeB (splitFields (pyStrip line)))[5]?.getD ""))).1.1
        (fuzzyLookup scorer registry st.fuzzy_cache
          (pyLower ((normalizeB (splitFields (pyStrip line)))[5]?.getD ""))).1.2
        (pyLower ((normalizeB (splitFields (pyStrip line)))[16]?.getD "")) = true) :=
      fun h => hcnd ((transferHit_iff scorer registry st.fuzzy_cache
        (pyLower ((normalizeB (splitFields (pyStrip line)))[5]?.getD ""))
        (pyLower ((normalizeB (splitFields (pyStrip line)))[16]?.getD "")) hz hc).mp h)
    rw [if_neg hnot, if_neg hcnd, if_neg hcnd]
    refine ⟨?_, ?_⟩ <;> simp

theorem C7_witness :
    (process_b_record ["acme"] stepScorer initState
        "B|1|2|3|4|Acme|6|7|8|9|10|11|12|50|14|15|donation").total_pac_to_pac
      = initState.total_pac_to_pac
        + (if THRESHOLD ≤ (fuzzyLookup stepScorer ["acme"] initState.fuzzy_cache
                (bRecipient "B|1|2|3|4|Acme|6|7|8|9|10|11|12|50|14|15|donation")).1.2 ∧
              transfer_keywords.any (fun k =>
                containsSub (bPurpose "B|1|2|3|4|Acme|6|7|8|9|10|11|12|50|14|15|donation") k) = true
           then (50 : ℚ) else 0) ∧
    (process_b_record ["acme"] stepScorer initState
        "B|1|2|3|4|Acme|6|7|8|9|10|11|12|50|14|15|donation").pac_to_pac_count
      = initState.pac_to_pac_count
        + (if THRESHOLD ≤ (fuzzyLookup stepScorer ["acme"] initState.fuzzy_cache
                (bRecipient "B|1|2|3|4|Acme|6|7|8|9|10|11|12|50|14|15|donation")).1.2 ∧
              transfer_keywords.any (fun k =>
                containsSub (bPurpose "B|1|2|3|4|Acme|6|7|8|9|10|11|12|50|14|15|donation") k) = true
           then 1 else 0) :=
  C7_transfer_iff_claim ["acme"] stepScorer initState
    "B|1|2|3|4|Acme|6|7|8|9|10|11|12|50|14|15|donation" 50
    (fun q => by simp [stepScorer])
    (fun n r h => nomatch h)
    (by decide) (by decide) (by decide)

end IRS527

namespace IRS527

/-- C9 (amended): every record queued for the B sink by a processed type-B
record (at least 14 fields) has exactly 18 fields; its trailing field is the
decimal representation of a similarity score in 0-100 whenever the recipient
name is non-empty and the amount parses, and otherwise is exactly the
(padded or truncated) original 18th field, which the code never overwrites. -/
theorem C9_trailing_field_amended (registry : List String) (scorer : String → String → ℕ)
    (st : SplitState) (line : String)
    (hs : ScorerBounded scorer) (hcb : CacheBounded st.fuzzy_cache)
    (hlen : 14 ≤ (splitFields (pyStrip line)).length) :
    ∃ out, (process_b_record registry scorer st line).b_queue = st.b_queue ++ [out] ∧
      out.length = 18 ∧
      (bRecipient line ≠ "" → (parseAmountField (bAmountStr line)).isSome →
        ∃ n, n ≤ 100 ∧ out.getD 17 "" = toString n) ∧
      ((bRecipient line = "" ∨ parseAmountField (bAmountStr line) = none) →
        out = bFields line) := by
  simp only [bRecipient, bAmountStr, bFields, List.getD_eq_getElem?_getD]
  simp only [process_b_record, List.getD_eq_getElem?_getD]
  rw [if_neg (Nat.not_lt.mpr hlen)]
  split
  case h_1 x heq =>
    refine ⟨normalizeB (splitFields (pyStrip line)), by simp, normalizeB_length _, ?_, ?_⟩
    · intro _ hsome
      rw [heq] at hsome
      simp at hsome
    · intro _
      rfl
  case h_2 x a heq =>
    by_cases hrec : pyLower ((normalizeB (splitFields (pyStrip line)))[5]?.getD "") = ""
    · rw [if_pos hrec]
      refine ⟨normalizeB (splitFields (pyStrip line)), by simp, normalizeB_length _, ?_,
        fun _ => rfl⟩
      intro hr _
      exact absurd hrec hr
    · rw [if_neg hrec]
      have hscore : (fuzzyLookup scorer registry st.fuzzy_cache
          (pyLower ((normalizeB (splitFields (pyStrip line)))[5]?.getD ""))).1.2 ≤ 100 :=
        fuzzyLookup_le scorer registry st.fuzzy_cache _ hs hcb
      have hgetd := getD_set_17 (normalizeB (splitFields (pyStrip line)))
        (toString (fuzzyLookup scorer registry st.fuzzy_cache
          (pyLower ((normalizeB (splitFields (pyStrip line)))[5]?.getD ""))).1.2)
        (normalizeB_length _)
      rw [List.getD_eq_getElem?_getD] at hgetd
      split <;>
        refine ⟨(normalizeB (splitFields (pyStrip line))).set 17
          (toString (fuzzyLookup scorer registry st.fuzzy_cache
            (pyLower ((normalizeB (splitFields (pyStrip line)))[5]?.getD ""))).1.2),
          by simp, ?_, ?_, ?_⟩
      · rw [List.length_set, normalizeB_length]
      · intro _ _
        exact ⟨_, hscore, hgetd⟩
      · rintro (h | h)
        · exact absurd h hrec
        · rw [heq] at h
          exact absurd h (by simp)
      · rw [List.length_set, normalizeB_length]
      · intro _ _
        exact ⟨_, hscore, hgetd⟩
      · rintro (h | h)
        · exact absurd h hrec
        · rw [heq] at h
          exact absurd h (by simp)

theorem C9_witness :
    ∃ out, (process_b_record [] zeroScorer initState
        "B|1|2|3|4|n|6|7|8|9|10|11|12|5").b_queue = initState.b_queue ++ [out] ∧
      out.length = 18 ∧
      (bRecipient "B|1|2|3|4|n|6|7|8|9|10|11|12|5" ≠ "" →
        (parseAmountField (bAmountStr "B|1|2|3|4|n|6|7|8|9|10|11|12|5")).isSome →
        ∃ n, n ≤ 100 ∧ out.getD 17 "" = toString n) ∧
      ((bRecipient "B|1|2|3|4|n|6|7|8|9|10|11|12|5" = "" ∨
          parseAmountField (bAmountStr "B|1|2|3|4|n|6|7|8|9|10|11|12|5") = none) →
        out = bFields "B|1|2|3|4|n|6|7|8|9|10|11|12|5") :=
  C9_trailing_field_amended [] zeroScorer initState "B|1|2|3|4|n|6|7|8|9|10|11|12|5"
    (fun q c => Nat.zero_le 100)
    (fun n r h => nomatch h)
    (by decide)

/-- C9 (counterexample to the claim as stated): a processed "B" record with an
empty recipient name is queued with its padded original trailing field, the
empty string, which is not the decimal representation of any score 0-100. -/
theorem C9_counterexample :
    (runSplit [] zeroScorer ["B|1|2|3|4||6|7|8|9|10|11|12|7"]).b_queue.length = 1 ∧
    isScoreField
      (((runSplit [] zeroScorer ["B|1|2|3|4||6|7|8|9|10|11|12|7"]).b_queue.headD []).getD 17 "")
      = false := by
  decide

end IRS527
